import Mathlib

/-!
Shallow embedding of the todo-list application core (`static/js/todo.js`):
the Todo Store mutations (`loadTodos`, `addTodo`, `toggleTodo`, `deleteTodo`),
the Filter Engine (`applyFilters`), and the Pagination Engine
(`renderPagination` / `goToPage`), together with proofs of the specified
properties.

JavaScript strings are modelled as Lean `String` (a list of characters);
JavaScript numbers appearing as ids, user ids and page indices are modelled
as `Int`.  The remote DummyJSON service is modelled by explicit parameters:
the response an operation would receive, or `none` when the call fails.
-/

/-- The Todo entity: `id`, `title`, `completed`, `userId`, `createdAt`
(a day-granularity ISO date kept as a string, exactly as the code stores
`new Date().toISOString().split('T')[0]`). -/
structure Todo where
  id : Int
  title : String
  completed : Bool
  userId : Int
  createdAt : String
deriving DecidableEq, Repr

/-- An item of the remote service's `GET /todos` response: `{ id, todo,
completed, userId }`, where the `todo` field maps to the entity's `title`. -/
structure RemoteTodo where
  id : Int
  todo : String
  completed : Bool
  userId : Int
deriving DecidableEq, Repr

/-- The remote service's response to `POST /todos/add`.  The code reads
`response.data.id`, `response.data.todo`, `response.data.completed` and
`response.data.userId`; `id` and `todo` are `Option`s because the code
guards them with JavaScript `||` fallbacks (a missing field is `none`). -/
structure AddResponse where
  id : Option Int
  todo : Option String
  completed : Bool
  userId : Int
deriving DecidableEq, Repr

/-- JavaScript falsiness of a string (`!s`): true exactly for the empty
string. -/
def jsFalsyStr (s : String) : Bool := s.data.isEmpty

/-- JavaScript `String.prototype.toLowerCase()`, character-wise. -/
def jsToLower (s : String) : String := ⟨s.data.map Char.toLower⟩

/-- JavaScript `String.prototype.trim()`: strip whitespace from both ends. -/
def jsTrim (s : String) : String :=
  ⟨((s.data.dropWhile Char.isWhitespace).reverse.dropWhile Char.isWhitespace).reverse⟩

/-- Does `hay` start with `needle`? (helper for substring containment). -/
def strStartsWith : List Char → List Char → Bool
  | _, [] => true
  | [], _ :: _ => false
  | a :: as, b :: bs => a == b && strStartsWith as bs

/-- Substring containment on character lists (helper for `jsIncludes`). -/
def containsSub : List Char → List Char → Bool
  | [], needle => strStartsWith [] needle
  | h :: t, needle => strStartsWith (h :: t) needle || containsSub t needle

/-- JavaScript `String.prototype.includes(needle)`: substring containment;
the empty needle is contained in every string. -/
def jsIncludes (hay needle : String) : Bool := containsSub hay.data needle.data

/-- JavaScript `<` on strings: lexicographic comparison by character code. -/
def charListLt : List Char → List Char → Bool
  | _, [] => false
  | [], _ :: _ => true
  | a :: as, b :: bs =>
    a.val < b.val || (a.val == b.val && charListLt as bs)

/-- JavaScript `a >= b` on strings (`!(a < b)`). -/
def jsStrGe (a b : String) : Bool := !charListLt a.data b.data

/-- JavaScript `a <= b` on strings (`!(b < a)`). -/
def jsStrLe (a b : String) : Bool := !charListLt b.data a.data

/-- The page size: `this.todosPerPage = 10`. -/
def todosPerPage : Nat := 10

/-- The mutable application state relevant to the core: `this.todos`,
`this.filteredTodos` and `this.currentPage`. -/
structure AppState where
  todos : List Todo
  filteredTodos : List Todo
  currentPage : Int
deriving DecidableEq, Repr

/-- `loadTodos` success path: the fetched collection replaces local state
wholesale, each item mapped to a Todo (`title := item.todo`) and paired with
the synthetic random `createdAt` generated for it (`generateRandomDate()`,
modelled as an explicit input since it is random). -/
def loadTodos (fetched : List (RemoteTodo × String)) : List Todo :=
  fetched.map fun item =>
    { id := item.1.id
      title := item.1.todo
      completed := item.1.completed
      userId := item.1.userId
      createdAt := item.2 }

/-- The error taxonomy of the store operations. -/
inductive AddError where
  | validation
  | remote
deriving DecidableEq, Repr

/-- JavaScript `v || fallback` for a number field: `none` (undefined) and
`some 0` (zero is falsy) both yield the fallback. -/
def jsOrInt (v : Option Int) (fallback : Int) : Int :=
  match v with
  | none => fallback
  | some x => if x = 0 then fallback else x

/-- JavaScript `v || fallback` for a string field: `none` (undefined) and
the empty string (falsy) both yield the fallback. -/
def jsOrStr (v : Option String) (fallback : String) : String :=
  match v with
  | none => fallback
  | some x => if jsFalsyStr x then fallback else x

/-- `addTodo`: trim the title; if it is falsy, report a validation error and
stop (no remote call).  Otherwise submit to the remote service (`remote` is
the response, `none` meaning the call failed): on failure report a remote
error and leave the collection unchanged; on success build the added todo
from the response — `id := response.id || (todos.length + 1)`,
`title := response.todo || title`, `completed := response.completed`,
`createdAt := today` — and prepend it (`unshift`).  Returns the error (if
any) and the resulting collection. -/
def addTodo (rawTitle : String) (userId : Int) (today : String)
    (remote : Option AddResponse) (todos : List Todo) :
    Option AddError × List Todo :=
  let title := jsTrim rawTitle
  if jsFalsyStr title then (some .validation, todos)
  else
    match remote with
    | none => (some .remote, todos)
    | some resp =>
      let addedTodo : Todo :=
        { id := jsOrInt resp.id ((todos.length : Int) + 1)
          title := jsOrStr resp.todo title
          completed := resp.completed
          userId := resp.userId
          createdAt := today }
      (none, addedTodo :: todos)

/-- Result of `toggleTodo`: the resulting collection, whether an exception
propagated to the caller, and whether the remote update was persisted. -/
structure ToggleResult where
  todos : List Todo
  threw : Bool
  savedRemotely : Bool
deriving DecidableEq, Repr

/-- `toggleTodo`: `findIndex` the todo by id; return unchanged if absent
(index `-1`).  Otherwise replace the element at that index with a copy whose
`completed` is negated — locally, before the remote call.  The remote `PUT`
(outcome `remoteOk`) is wrapped in its own try/catch: failure is only
logged, the local change is kept, and nothing is thrown to the caller. -/
def toggleTodo (todos : List Todo) (todoId : Int) (remoteOk : Bool) :
    ToggleResult :=
  match todos.findIdx? (fun todo => todo.id == todoId) with
  | none => { todos := todos, threw := false, savedRemotely := false }
  | some todoIndex =>
    match todos[todoIndex]? with
    | none => { todos := todos, threw := false, savedRemotely := false }
    | some todo =>
      { todos := todos.set todoIndex { todo with completed := !todo.completed }
        threw := false
        savedRemotely := remoteOk }

/-- `deleteTodo`: if the user does not confirm, return unchanged; otherwise
remove every todo whose id equals the given id from the local collection
immediately (`this.todos.filter(todo => todo.id !== todoId)`); the remote
deletion's outcome never affects the local collection. -/
def deleteTodo (todos : List Todo) (todoId : Int) (confirmed : Bool) :
    List Todo :=
  if !confirmed then todos
  else todos.filter fun todo => todo.id != todoId

/-- The filter predicate of `applyFilters`, applied to each todo:
`matchesSearch && matchesFromDate && matchesToDate`, where `searchTerm` is
the already-lowercased search input and the date bounds use JavaScript
string comparison (vacuous when the bound is the empty string). -/
def matchesFilters (searchTerm fromDate toDate : String) (todo : Todo) :
    Bool :=
  let matchesSearch :=
    jsFalsyStr searchTerm || jsIncludes (jsToLower todo.title) searchTerm
  let todoDate := todo.createdAt
  let matchesFromDate := jsFalsyStr fromDate || jsStrGe todoDate fromDate
  let matchesToDate := jsFalsyStr toDate || jsStrLe todoDate toDate
  matchesSearch && matchesFromDate && matchesToDate

/-- The Filter Engine: `applyFilters` lowercases the raw search input and
filters the collection with `matchesFilters`. -/
def filterTodos (searchInput fromDate toDate : String)
    (todos : List Todo) : List Todo :=
  let searchTerm := jsToLower searchInput
  todos.filter (matchesFilters searchTerm fromDate toDate)

/-- `applyFilters` at the state level: recompute `filteredTodos` from
`todos` and reset `currentPage` to 1. -/
def applyFilters (searchInput fromDate toDate : String) (s : AppState) :
    AppState :=
  { s with
    filteredTodos := filterTodos searchInput fromDate toDate s.todos
    currentPage := 1 }

/-- `Math.ceil(filteredLen / todosPerPage)`: the page count computed by both
`renderPagination` and `goToPage`.  Note there is no minimum of 1: it is 0
when the filtered collection is empty. -/
def totalPages (filteredLen : Nat) : Nat :=
  filteredLen / todosPerPage + (if filteredLen % todosPerPage = 0 then 0 else 1)

/-- `goToPage(page)`: reject the request outright (state unchanged) when
`page < 1 || page > totalPages`; otherwise set `currentPage := page`. -/
def goToPage (s : AppState) (page : Int) : AppState :=
  let tp := totalPages s.filteredTodos.length
  if page < 1 || page > (tp : Int) then s
  else { s with currentPage := page }

/-- `getPaginatedTodos`: the slice of the filtered collection for the
current page. -/
def getPaginatedTodos (s : AppState) : List Todo :=
  let startIndex := (s.currentPage - 1).toNat * todosPerPage
  (s.filteredTodos.drop startIndex).take todosPerPage

/-- Uniqueness invariant: all `id` values in the collection are pairwise
distinct. -/
def uniqueIds (todos : List Todo) : Prop := (todos.map Todo.id).Nodup

instance : DecidablePred uniqueIds :=
  fun todos => List.nodupDecidable (todos.map Todo.id)

/-- The filter predicate as the specification words it: case-insensitive
substring match of the search text against the title (an empty search
matches everything), and inclusive day-granularity date bounds on
`createdAt` compared lexicographically, each vacuous when absent.  Written
from the spec for comparison against the code's `matchesFilters`. -/
def specFilterPred (s fromDate toDate : String) (todo : Todo) : Bool :=
  (jsFalsyStr s || jsIncludes (jsToLower todo.title) (jsToLower s)) &&
  (jsFalsyStr fromDate || jsStrGe todo.createdAt fromDate) &&
  (jsFalsyStr toDate || jsStrLe todo.createdAt toDate)

/-- Reference implementation of toggling the first todo whose id matches,
used to reason about `toggleTodo`'s `findIndex`-and-assign. -/
def toggleFirst (todoId : Int) : List Todo → List Todo
  | [] => []
  | todo :: rest =>
    if todo.id == todoId then
      { todo with completed := !todo.completed } :: rest
    else
      todo :: toggleFirst todoId rest

/-! ## Concrete sample data used to evaluate the definitions -/

/-- A sample todo. -/
def sampleTodo : Todo :=
  { id := 1, title := "Buy milk", completed := false, userId := 1
    createdAt := "2024-01-02" }

/-- A sample collection of eleven todos with distinct ids (two pages). -/
def elevenTodos : List Todo :=
  (List.range 11).map fun i =>
    { id := (i : Int) + 1, title := "task", completed := false, userId := 1
      createdAt := "2024-01-02" }

/-- A state whose filtered collection spans two pages. -/
def pagedState : AppState :=
  { todos := elevenTodos, filteredTodos := elevenTodos, currentPage := 1 }

/-- A state with an empty filtered collection and current page 2. -/
def emptyFilteredState : AppState :=
  { todos := [], filteredTodos := [], currentPage := 2 }

/-- A pre-existing todo whose id is 2 while the collection length is 1. -/
def dupSeedTodo : Todo :=
  { id := 2, title := "existing", completed := false, userId := 1
    createdAt := "2024-01-01" }

/-- A remote add response that does not echo an id. -/
def noIdResponse : AddResponse :=
  { id := none, todo := none, completed := false, userId := 1 }

/-- A remote add response that echoes the submitted todo back. -/
def echoResponse : AddResponse :=
  { id := some 255, todo := some "Buy milk", completed := false, userId := 1 }

/-! ## Helper lemmas -/

/-- Lowercasing preserves (non-)emptiness of a string. -/
theorem jsFalsyStr_jsToLower (s : String) :
    jsFalsyStr (jsToLower s) = jsFalsyStr s := by
  cases s with
  | mk data => cases data <;> simp [jsFalsyStr, jsToLower]

/-- The code's filter predicate, applied to the lowercased search input,
coincides with the specification's predicate. -/
theorem matchesFilters_eq_specFilterPred (s fromDate toDate : String)
    (todo : Todo) :
    matchesFilters (jsToLower s) fromDate toDate todo =
      specFilterPred s fromDate toDate todo := by
  simp only [matchesFilters, specFilterPred, jsFalsyStr_jsToLower]

/-- `toggleTodo` edits the collection exactly as `toggleFirst` does. -/
theorem toggleTodo_todos_eq (todos : List Todo) (todoId : Int)
    (remoteOk : Bool) :
    (toggleTodo todos todoId remoteOk).todos = toggleFirst todoId todos := by
  induction todos with
  | nil => rfl
  | cons t ts ih =>
    by_cases h : (t.id == todoId) = true
    · simp [toggleTodo, toggleFirst, List.findIdx?_cons, h]
    · have h' : (t.id == todoId) = false := by simpa using h
      rcases hf : ts.findIdx? (fun todo => todo.id == todoId) with _ | i
      · have hi : (toggleTodo ts todoId remoteOk).todos = ts := by
          simp [toggleTodo, hf]
        have hts : toggleFirst todoId ts = ts := ih.symm.trans hi
        simp [toggleTodo, toggleFirst, List.findIdx?_cons, h',
          List.findIdx?_succ, hf, hts]
      · obtain ⟨hlt, -, -⟩ := List.findIdx?_eq_some_iff_getElem.mp hf
        have hg : ts[i]? = some ts[i] := List.getElem?_eq_getElem hlt
        have hi : (toggleTodo ts todoId remoteOk).todos =
            ts.set i { ts[i] with completed := !(ts[i].completed) } := by
          simp [toggleTodo, hf, hg]
        have hts : ts.set i { ts[i] with completed := !(ts[i].completed) } =
            toggleFirst todoId ts := hi.symm.trans ih
        simp [toggleTodo, toggleFirst, List.findIdx?_cons, h',
          List.findIdx?_succ, hf, hg, hts]

/-- When no todo has the id, `toggleFirst` leaves the list unchanged. -/
theorem toggleFirst_of_not_mem (todos : List Todo) (todoId : Int)
    (h : ∀ t ∈ todos, t.id ≠ todoId) : toggleFirst todoId todos = todos := by
  induction todos with
  | nil => rfl
  | cons t ts ih =>
    have ht : (t.id == todoId) = false := by
      simpa using h t (by simp)
    simp only [toggleFirst, ht, Bool.false_eq_true, if_false, List.cons.injEq,
      true_and]
    exact ih fun x hx => h x (by simp [hx])

/-- Toggling the same id twice restores the original list. -/
theorem toggleFirst_toggleFirst (todoId : Int) (todos : List Todo) :
    toggleFirst todoId (toggleFirst todoId todos) = todos := by
  induction todos with
  | nil => rfl
  | cons t ts ih =>
    cases t with
    | mk tid ttitle tcomp tuid tdate =>
      by_cases h : (tid == todoId) = true
      · simp [toggleFirst, h, Bool.not_not]
      · have h' : (tid == todoId) = false := by simpa using h
        simp [toggleFirst, h', ih]

/-- `toggleFirst` never changes the sequence of ids. -/
theorem toggleFirst_map_id (todoId : Int) (todos : List Todo) :
    (toggleFirst todoId todos).map Todo.id = todos.map Todo.id := by
  induction todos with
  | nil => rfl
  | cons t ts ih =>
    by_cases h : (t.id == todoId) = true
    · simp [toggleFirst, h]
    · have h' : (t.id == todoId) = false := by simpa using h
      simp [toggleFirst, h', ih]

/-- `toggleTodo` never reports a propagated exception: the remote failure is
swallowed by the inner catch. -/
theorem toggleTodo_threw (todos : List Todo) (todoId : Int) (remoteOk : Bool) :
    (toggleTodo todos todoId remoteOk).threw = false := by
  cases hf : todos.findIdx? (fun todo => todo.id == todoId) with
  | none => simp [toggleTodo, hf]
  | some i =>
    cases hg : todos[i]? with
    | none => simp [toggleTodo, hf, hg]
    | some t => simp [toggleTodo, hf, hg]

/-! ## Claims -/

/-- C2: for every collection `T`, search text `s` and optional date bounds,
the filter operation returns exactly the ordered sublist of `T` whose
elements satisfy the three predicates (case-insensitive substring match,
inclusive `createdAt` bounds, each vacuous when absent), and the output is a
subsequence of `T` preserving relative order. -/
theorem C2_filter_matches_spec (T : List Todo) (s fromDate toDate : String) :
    List.Sublist (filterTodos s fromDate toDate T) T ∧
    filterTodos s fromDate toDate T =
      T.filter (specFilterPred s fromDate toDate) ∧
    ∀ todo ∈ filterTodos s fromDate toDate T,
      (jsFalsyStr s || jsIncludes (jsToLower todo.title) (jsToLower s)) = true ∧
      (jsFalsyStr fromDate || jsStrGe todo.createdAt fromDate) = true ∧
      (jsFalsyStr toDate || jsStrLe todo.createdAt toDate) = true := by
  have hpred : filterTodos s fromDate toDate T =
      T.filter (specFilterPred s fromDate toDate) :=
    List.filter_congr fun todo _ =>
      matchesFilters_eq_specFilterPred s fromDate toDate todo
  refine ⟨?_, hpred, ?_⟩
  · unfold filterTodos
    exact List.filter_sublist T
  · intro todo hmem
    rw [hpred] at hmem
    have hp := (List.mem_filter.mp hmem).2
    simp only [specFilterPred, Bool.and_eq_true] at hp
    exact ⟨hp.1.1, hp.1.2, hp.2⟩

/-- C2 witness: the filter evaluated on a concrete collection and search. -/
theorem C2_filter_matches_spec_witness :
    List.Sublist (filterTodos "MILK" "" "" [sampleTodo]) [sampleTodo] ∧
    (jsFalsyStr "MILK" ||
      jsIncludes (jsToLower sampleTodo.title) (jsToLower "MILK")) = true :=
  ⟨(C2_filter_matches_spec [sampleTodo] "MILK" "" "").1,
   ((C2_filter_matches_spec [sampleTodo] "MILK" "" "").2.2 sampleTodo
     (by decide)).1⟩

/-- C3: filtering with empty search text and no date bounds is the
identity on the collection. -/
theorem C3_filter_identity (T : List Todo) : filterTodos "" "" "" T = T := by
  unfold filterTodos
  apply List.filter_eq_self.mpr
  intro todo _
  have h1 : jsFalsyStr (jsToLower "") = true := rfl
  have h2 : jsFalsyStr "" = true := rfl
  simp [matchesFilters, h1, h2]

/-- C4 (amended): the computed page count is exactly `ceil(n / 10)` — the
least `m` with `n ≤ 10 * m` — with no minimum of 1: it is 0 when `n = 0`. -/
theorem C4_page_count_amended (n : Nat) :
    n ≤ todosPerPage * totalPages n ∧
    todosPerPage * totalPages n < n + todosPerPage := by
  unfold totalPages todosPerPage
  split <;> omega

/-- C4 counterexample: for an empty filtered collection the code computes a
page count of 0, not the claimed minimum of 1. -/
theorem C4_counterexample : totalPages 0 = 0 ∧ ¬ totalPages 0 = 1 := by
  decide

/-- C5 (amended): `goToPage(k)` leaves the state unchanged when `k < 1` or
`k` exceeds the computed page count (which has no minimum of 1), sets
`currentPage := k` otherwise, and when the filtered collection is empty the
page count is 0, so every request — page 1 included — is rejected. -/
theorem C5_goToPage_amended (s : AppState) (k : Int) :
    ((k < 1 ∨ (totalPages s.filteredTodos.length : Int) < k) →
      goToPage s k = s) ∧
    (1 ≤ k → k ≤ (totalPages s.filteredTodos.length : Int) →
      goToPage s k = { s with currentPage := k }) ∧
    (s.filteredTodos = [] → goToPage s k = s) := by
  refine ⟨fun h => ?_, fun h1 h2 => ?_, fun he => ?_⟩
  · unfold goToPage
    rw [if_pos]
    simp only [Bool.or_eq_true, decide_eq_true_eq]
    omega
  · unfold goToPage
    rw [if_neg]
    simp only [Bool.or_eq_true, decide_eq_true_eq]
    push_neg
    omega
  · unfold goToPage
    rw [if_pos]
    simp only [Bool.or_eq_true, decide_eq_true_eq, he, List.length_nil]
    have h0 : totalPages 0 = 0 := rfl
    omega

/-- C5 witness: on a two-page state, page 2 is accepted and page 3 is
rejected. -/
theorem C5_goToPage_amended_witness :
    goToPage pagedState 2 = { pagedState with currentPage := 2 } ∧
    goToPage pagedState 3 = pagedState ∧
    goToPage emptyFilteredState 1 = emptyFilteredState :=
  ⟨(C5_goToPage_amended pagedState 2).2.1 (by decide) (by decide),
   (C5_goToPage_amended pagedState 3).1 (by decide),
   (C5_goToPage_amended emptyFilteredState 1).2.2 rfl⟩

/-- C5 counterexample: with an empty filtered collection (and current page
2), requesting page 1 is rejected — `currentPage` stays 2 — whereas the
claim says page 1 is still a valid target. -/
theorem C5_counterexample :
    (goToPage emptyFilteredState 1).currentPage = 2 ∧
    ¬ (goToPage emptyFilteredState 1).currentPage = 1 := by
  decide

/-- C10: a confirmed delete keeps exactly the todos whose id differs from
the given id (all todos sharing that id are removed, order preserved), and
when no todo has the id the collection is unchanged. -/
theorem C10_delete_spec (todos : List Todo) (todoId : Int) :
    deleteTodo todos todoId true =
      todos.filter (fun todo => todo.id != todoId) ∧
    List.Sublist (deleteTodo todos todoId true) todos ∧
    (∀ t, t ∈ deleteTodo todos todoId true ↔ t ∈ todos ∧ t.id ≠ todoId) ∧
    ((∀ t ∈ todos, t.id ≠ todoId) → deleteTodo todos todoId true = todos) := by
  have hdef : deleteTodo todos todoId true =
      todos.filter (fun todo => todo.id != todoId) := rfl
  refine ⟨hdef, ?_, ?_, ?_⟩
  · rw [hdef]
    exact List.filter_sublist todos
  · intro t
    rw [hdef, List.mem_filter]
    simp [bne_iff_ne]
  · intro h
    rw [hdef]
    apply List.filter_eq_self.mpr
    intro t ht
    simpa [bne_iff_ne] using h t ht

/-- C10 witness: deleting an id that is absent leaves a concrete collection
unchanged. -/
theorem C10_delete_spec_witness :
    deleteTodo [sampleTodo] 99 true = [sampleTodo] :=
  (C10_delete_spec [sampleTodo] 99).2.2.2 (by decide)

/-- C6: `add` fails with a validation error exactly when the title is empty
after trimming; in that case the remote response is never consulted (no
remote call is attempted); with a non-empty title and a failed remote call
it fails with a remote error; and on any failure the collection is left
unchanged. -/
theorem C6_add_error_handling (todos : List Todo) (rawTitle : String)
    (userId : Int) (today : String) (remote : Option AddResponse) :
    ((addTodo rawTitle userId today remote todos).1 =
        some AddError.validation ↔ jsFalsyStr (jsTrim rawTitle) = true) ∧
    (jsFalsyStr (jsTrim rawTitle) = true →
      ∀ remote2, addTodo rawTitle userId today remote todos =
        addTodo rawTitle userId today remote2 todos) ∧
    (jsFalsyStr (jsTrim rawTitle) = false →
      (addTodo rawTitle userId today none todos).1 = some AddError.remote) ∧
    (∀ e, (addTodo rawTitle userId today remote todos).1 = some e →
      (addTodo rawTitle userId today remote todos).2 = todos) := by
  by_cases hv : jsFalsyStr (jsTrim rawTitle) = true
  · simp [addTodo, hv]
  · have hv' : jsFalsyStr (jsTrim rawTitle) = false := by
      simpa using hv
    cases remote with
    | none => simp [addTodo, hv']
    | some resp => simp [addTodo, hv']

/-- C6 witness: a whitespace-only title is rejected identically whatever the
remote would answer, and a failed remote call with a good title reports a
remote error and leaves the collection unchanged. -/
theorem C6_add_error_handling_witness :
    addTodo "   " 1 "2024-01-02" (some echoResponse) [sampleTodo] =
      addTodo "   " 1 "2024-01-02" none [sampleTodo] ∧
    (addTodo "Buy milk" 1 "2024-01-02" none [sampleTodo]).1 =
      some AddError.remote ∧
    (addTodo "Buy milk" 1 "2024-01-02" none [sampleTodo]).2 = [sampleTodo] :=
  ⟨(C6_add_error_handling [sampleTodo] "   " 1 "2024-01-02"
      (some echoResponse)).2.1 (by decide) none,
   (C6_add_error_handling [sampleTodo] "Buy milk" 1 "2024-01-02"
      none).2.2.1 (by decide),
   (C6_add_error_handling [sampleTodo] "Buy milk" 1 "2024-01-02"
      none).2.2.2 AddError.remote (by decide)⟩

/-- C7: when the title is non-empty after trimming and the remote call
succeeds with a response that echoes the submitted todo (text echoed or
absent, `completed` echoed as `false`), the result is the old collection
with exactly one new todo prepended at index 0, whose title is the trimmed
title and whose completed flag is false; all previous todos are unchanged
and in order. -/
theorem C7_add_success_prepends (todos : List Todo) (rawTitle : String)
    (userId : Int) (today : String) (resp : AddResponse)
    (hne : jsFalsyStr (jsTrim rawTitle) = false)
    (hecho : resp.todo = none ∨ resp.todo = some (jsTrim rawTitle))
    (hcomp : resp.completed = false) :
    addTodo rawTitle userId today (some resp) todos =
      (none,
        { id := jsOrInt resp.id ((todos.length : Int) + 1)
          title := jsTrim rawTitle
          completed := false
          userId := resp.userId
          createdAt := today } :: todos) := by
  rcases hecho with h | h <;>
    simp [addTodo, hne, hcomp, h, jsOrStr]

/-- C7 witness: adding "Buy milk" to the empty collection with an echoing
remote response prepends the expected todo. -/
theorem C7_add_success_prepends_witness :
    addTodo "Buy milk" 1 "2024-01-02" (some echoResponse) [] =
      (none,
        [{ id := 255, title := "Buy milk", completed := false, userId := 1
           createdAt := "2024-01-02" }]) :=
  (C7_add_success_prepends [] "Buy milk" 1 "2024-01-02" echoResponse
    (by decide) (Or.inr (by decide)) rfl).trans (by decide)

/-- C8: `toggleComplete` leaves the collection unchanged when no todo has
the id; it never propagates an exception; and when a todo with the id
exists, the first such todo's completed flag is flipped in place — by the
same amount whatever the remote outcome, so a remote failure retains the
local flip. -/
theorem C8_toggle_spec (todos : List Todo) (todoId : Int) (remoteOk : Bool) :
    ((∀ t ∈ todos, t.id ≠ todoId) →
      (toggleTodo todos todoId remoteOk).todos = todos) ∧
    (toggleTodo todos todoId remoteOk).threw = false ∧
    ((∃ t ∈ todos, t.id = todoId) →
      ∃ i, ∃ h : i < todos.length,
        todos[i].id = todoId ∧
        ∀ ok : Bool, (toggleTodo todos todoId ok).todos =
          todos.set i { todos[i] with completed := !(todos[i].completed) }) := by
  refine ⟨fun h => ?_, toggleTodo_threw todos todoId remoteOk, fun h => ?_⟩
  · rw [toggleTodo_todos_eq]
    exact toggleFirst_of_not_mem todos todoId h
  · obtain ⟨t, ht, hid⟩ := h
    have hex : ∃ x, x ∈ todos ∧ (fun todo => todo.id == todoId) x = true :=
      ⟨t, ht, by simpa using hid⟩
    have hfi := List.findIdx?_eq_some_of_exists hex
    obtain ⟨hlt, hp, -⟩ := List.findIdx?_eq_some_iff_getElem.mp hfi
    refine ⟨todos.findIdx (fun todo => todo.id == todoId), hlt,
      by simpa using hp, fun ok => ?_⟩
    have hg : todos[todos.findIdx (fun todo => todo.id == todoId)]? =
        some todos[todos.findIdx (fun todo => todo.id == todoId)] :=
      List.getElem?_eq_getElem hlt
    simp [toggleTodo, hfi, hg]

/-- C8 witness: toggling an absent id is a no-op, and toggling the only
todo flips it the same way whether or not the remote call succeeds. -/
theorem C8_toggle_spec_witness :
    (toggleTodo [sampleTodo] 99 true).todos = [sampleTodo] ∧
    (toggleTodo [sampleTodo] 99 true).threw = false ∧
    (∃ i, ∃ h : i < ([sampleTodo] : List Todo).length,
      (([sampleTodo] : List Todo)[i]).id = 1 ∧
      ∀ ok : Bool, (toggleTodo [sampleTodo] 1 ok).todos =
        ([sampleTodo] : List Todo).set i
          { ([sampleTodo] : List Todo)[i] with
            completed := !((([sampleTodo] : List Todo)[i]).completed) }) :=
  ⟨(C8_toggle_spec [sampleTodo] 99 true).1 (by decide),
   (C8_toggle_spec [sampleTodo] 99 true).2.1,
   (C8_toggle_spec [sampleTodo] 1 true).2.2 ⟨sampleTodo, by simp, rfl⟩⟩

/-- C9: for an id present in the collection, toggling it twice restores the
collection — in particular that todo's completed flag — to its original
value, whatever the remote outcomes. -/
theorem C9_toggle_involution (todos : List Todo) (todoId : Int)
    (ok1 ok2 : Bool) (h : ∃ t ∈ todos, t.id = todoId) :
    (toggleTodo (toggleTodo todos todoId ok1).todos todoId ok2).todos =
      todos := by
  rw [toggleTodo_todos_eq, toggleTodo_todos_eq]
  exact toggleFirst_toggleFirst todoId todos

/-- C9 witness: toggling the concrete sample todo twice restores the
collection. -/
theorem C9_toggle_involution_witness :
    (toggleTodo (toggleTodo [sampleTodo] 1 true).todos 1 false).todos =
      [sampleTodo] :=
  C9_toggle_involution [sampleTodo] 1 true false ⟨sampleTodo, by simp, rfl⟩

/-- C1 (amended): starting from a collection with pairwise-distinct ids,
`delete` and `toggleComplete` always preserve the uniqueness invariant;
`load` establishes it whenever the fetched items' ids are distinct; and a
successful `add` preserves it provided the id of the constructed todo — the
service-echoed non-zero id, or `todos.length + 1` when none is echoed —
does not already occur in the collection.  (Unconditional preservation
fails: the synthesized id can collide, see the counterexample.) -/
theorem C1_unique_ids_amended (todos : List Todo) (h : uniqueIds todos) :
    (∀ todoId confirmed, uniqueIds (deleteTodo todos todoId confirmed)) ∧
    (∀ todoId remoteOk, uniqueIds (toggleTodo todos todoId remoteOk).todos) ∧
    (∀ fetched : List (RemoteTodo × String),
      (fetched.map fun item => item.1.id).Nodup →
        uniqueIds (loadTodos fetched)) ∧
    (∀ rawTitle userId today resp result,
      addTodo rawTitle userId today (some resp) todos = (none, result) →
      (∀ t ∈ todos, t.id ≠ jsOrInt resp.id ((todos.length : Int) + 1)) →
      uniqueIds result) := by
  refine ⟨fun todoId confirmed => ?_, fun todoId remoteOk => ?_,
    fun fetched hf => ?_, fun rawTitle userId today resp result heq hfresh => ?_⟩
  · cases confirmed with
    | false => exact h
    | true =>
      exact List.Nodup.sublist
        (List.Sublist.map Todo.id (List.filter_sublist todos)) h
  · unfold uniqueIds
    rw [toggleTodo_todos_eq, toggleFirst_map_id]
    exact h
  · unfold uniqueIds loadTodos
    rw [List.map_map]
    exact hf
  · by_cases hv : jsFalsyStr (jsTrim rawTitle) = true
    · simp [addTodo, hv] at heq
    · have hv' : jsFalsyStr (jsTrim rawTitle) = false := by simpa using hv
      simp only [addTodo, hv', Bool.false_eq_true, if_false, Prod.mk.injEq] at heq
      rw [← heq.2]
      unfold uniqueIds
      simp only [List.map_cons]
      refine List.nodup_cons.mpr ⟨fun hmem => ?_, h⟩
      obtain ⟨t, ht, hid⟩ := List.mem_map.mp hmem
      exact hfresh t ht hid

/-- C1 witness: concrete preserved cases — deleting and toggling on a
unique-id collection keep ids unique. -/
theorem C1_unique_ids_amended_witness :
    uniqueIds [sampleTodo] ∧
    uniqueIds (deleteTodo [sampleTodo] 1 true) ∧
    uniqueIds (toggleTodo [sampleTodo] 1 true).todos :=
  ⟨by decide,
   (C1_unique_ids_amended [sampleTodo] (by decide)).1 1 true,
   (C1_unique_ids_amended [sampleTodo] (by decide)).2.1 1 true⟩

/-- C1 counterexample: the collection `[dupSeedTodo]` (one todo, id 2) has
unique ids, yet a successful add whose response echoes no id synthesizes
`todos.length + 1 = 2` and produces a collection with two todos of id 2 —
the claimed invariant preservation fails. -/
theorem C1_counterexample :
    uniqueIds [dupSeedTodo] ∧
    (addTodo "task" 1 "2024-01-02" (some noIdResponse) [dupSeedTodo]).1 =
      none ∧
    ¬ uniqueIds
      (addTodo "task" 1 "2024-01-02" (some noIdResponse) [dupSeedTodo]).2 := by
  decide
